import Mathlib

/-!
Shallow embedding of `src/redis/checks/redisdb.py` (class `Redis`).

Conventions of the embedding:
* Python numeric values (int/float) are modelled as `ℚ`; `round(x, 2)` is
  Python 2 rounding (half away from zero) computed exactly on rationals.
* The info snapshot is an association list from field name to `Val`.
* Metric submission and logging are modelled as an ordered list of `Event`s.
* A Python exception that escapes `_check_db` is modelled as `some e : Option PyErr`
  returned together with the events emitted before the exception was raised and
  the state as it was at that point.
* The external redis client is modelled by parameters: the `info` snapshot it
  returned, an `llen` oracle for list-length queries (which can raise a
  response-level error), and, for `_get_conn`, a flag saying whether the client
  supports authenticated connections (`redis.Redis(..., password=...)` raises
  `TypeError` on ancient clients).
-/

namespace RedisCheck

/-- Python value stored inside a per-db structured info entry (`info['db0']['keys']`).
In practice these are ints; strings are kept for generality of `float()` calls. -/
inductive SVal where
  | num : ℚ → SVal
  | str : String → SVal
deriving DecidableEq, Repr

/-- Python value of a top-level info snapshot field: a number, a legacy flat
string such as `"keys=3,expires=0"`, or a structured per-db mapping. -/
inductive Val where
  | num : ℚ → Val
  | str : String → Val
  | dict : List (String × SVal) → Val
deriving DecidableEq, Repr

/-- Python exceptions that can escape the modelled code paths. -/
inductive PyErr where
  | keyError : String → PyErr
  | zeroDiv : PyErr
  | typeError : PyErr
  | valueError : PyErr
  | nameError : PyErr
deriving DecidableEq, Repr

/-- One observable side effect of a check invocation: a gauge submission, a
rate submission, or a line written to the logger. -/
inductive Event where
  | gauge : String → Val → List String → Event
  | rate : String → Val → List String → Event
  | log : String → Event
deriving DecidableEq, Repr

/-- Result of `conn.llen(name)`: a length, or a redis `ResponseError`
(e.g. WRONGTYPE) carrying its message. -/
inductive LLenRes where
  | ok : ℚ → LLenRes
  | err : String → LLenRes

/-- Python 2 `round(x, 2)`: round half away from zero to two decimals,
computed exactly on rationals (`x.num.natAbs / x.den` is `|x|` in lowest terms,
and `⌊y + 1/2⌋ = (200·|num| + den) / (2·den)` in natural division). -/
def round2 (q : ℚ) : ℚ :=
  if q < 0 then -(((q.num.natAbs * 200 + q.den) / (2 * q.den) : ℕ) : ℚ) / 100
  else (((q.num.natAbs * 200 + q.den) / (2 * q.den) : ℕ) : ℚ) / 100

/-- Value of a nonempty all-digit character run, most significant digit first. -/
def digitsVal (cs : List Char) : ℕ :=
  cs.foldl (fun a c => a * 10 + (c.toNat - 48)) 0

/-- Parse a nonempty run of ASCII digits; `none` otherwise. -/
def parseDigits (cs : List Char) : Option ℕ :=
  if cs = [] then none
  else if cs.all Char.isDigit then some (digitsVal cs) else none

/-- Python `int(v)` on the strings this check feeds it: an optional sign
followed by digits (whitespace-trimmed forms are not exercised here). -/
def pyIntOfStr (s : String) : Option ℤ :=
  match s.data with
  | '-' :: rest => (parseDigits rest).map (fun n => -(n : ℤ))
  | '+' :: rest => (parseDigits rest).map (fun n => (n : ℤ))
  | cs => (parseDigits cs).map (fun n => (n : ℤ))

/-- Unsigned decimal literal `digits` or `digits.digits` as an exact rational. -/
def parseUFrac (cs : List Char) : Option ℚ :=
  let intPart := cs.takeWhile (fun c => c ≠ '.')
  let rest := cs.dropWhile (fun c => c ≠ '.')
  match rest with
  | [] => (parseDigits cs).map (fun n => (n : ℚ))
  | _ :: frac =>
    if (intPart ++ frac).all Char.isDigit ∧ intPart ++ frac ≠ [] ∧
        frac.all (fun c => c ≠ '.') then
      some ((digitsVal intPart : ℚ) + (digitsVal frac : ℚ) / ((10 : ℚ) ^ frac.length))
    else none

/-- Python `float(s)` on plain decimal strings (exponents/inf/nan are not
exercised by this check's data). -/
def pyFloatOfStr (s : String) : Option ℚ :=
  match s.data with
  | '-' :: rest => (parseUFrac rest).map Neg.neg
  | '+' :: rest => parseUFrac rest
  | cs => parseUFrac cs

/-- Python `float(x)` on a per-db sub-value: numbers pass through, strings are
parsed (raising `ValueError` when malformed). -/
def pyFloatS : SVal → Except PyErr ℚ
  | SVal.num q => Except.ok q
  | SVal.str s =>
    match pyFloatOfStr s with
    | some q => Except.ok q
    | none => Except.error PyErr.valueError

/-- Python `float(x)` on a top-level info value; `float(dict)` is a `TypeError`. -/
def pyFloatV : Val → Except PyErr ℚ
  | Val.num q => Except.ok q
  | Val.str s =>
    match pyFloatOfStr s with
    | some q => Except.ok q
    | none => Except.error PyErr.valueError
  | Val.dict _ => Except.error PyErr.typeError

/-- Python `s.split(sep)` for a one-character separator, over character lists:
`"".split(',') = ['']`, empty segments are kept. -/
def splitOnChar (c : Char) : List Char → List (List Char)
  | [] => [[]]
  | a :: rest =>
    match splitOnChar c rest with
    | h :: t => if a = c then [] :: h :: t else (a :: h) :: t
    | [] => if a = c then [[], []] else [[a]]

/-- Python `item.rsplit('=', 1)` restricted to the shape the source unpacks as
`k, v = ...`: `none` models the `ValueError` raised when `item` has no `'='`. -/
def rsplitEq (item : String) : Option (String × String) :=
  let r := item.data.reverse
  if r.contains '=' then
    let i := r.findIdx (fun c => c == '=')
    some (String.mk ((r.drop (i + 1)).reverse), String.mk ((r.take i).reverse))
  else none

/-- Loop body of `Redis._parse_dict_string`: walk the comma-separated items; an
item with no `'='` raises (second component `true` models the logged
`except Exception` path); a matching key returns `int(v)` or, when `int`
raises `ValueError`, the raw string `v`. -/
def pdsLoop (key : String) (default : Val) : List String → Val × Bool
  | [] => (default, false)
  | item :: rest =>
    match rsplitEq item with
    | none => (default, true)
    | some (k, v) =>
      if k = key then
        (match pyIntOfStr v with
         | some n => Val.num (n : ℚ)
         | none => Val.str v, false)
      else pdsLoop key default rest

/-- `Redis._parse_dict_string(string, key, default)`. The boolean is `true`
exactly when the method logged "Cannot parse dictionary string" (its
`except Exception` handler) before returning the default. -/
def parse_dict_string (s : String) (key : String) (default : Val) : Val × Bool :=
  pdsLoop key default ((splitOnChar ',' s.data).map String.mk)

/-- Decimal rendering of a numeric Python value for log interpolation
(only integers are ever interpolated on the modelled paths). -/
def pyReprNum (q : ℚ) : String :=
  if q.den = 1 then toString q.num else toString q

/-- Resolution of one subkey of a per-db entry, from `_check_db`:
`info[key].get(subkey, -1)` for a dict; for a flat string the `AttributeError`
handler calls `_parse_dict_string(info[key], subkey, -1)`; a numeric value also
lands in `_parse_dict_string`, whose `string.split` then raises and is logged.
Returns the gauge value and the log line, if one was written. -/
def subkeyResolve (v : Val) (subkey : String) : Val × Option String :=
  match v with
  | Val.dict m =>
    (match m.lookup subkey with
     | some (SVal.num q) => Val.num q
     | some (SVal.str s) => Val.str s
     | none => Val.num (-1), none)
  | Val.str s =>
    match parse_dict_string s subkey (Val.num (-1)) with
    | (pv, logged) =>
      (pv, if logged then some ("Cannot parse dictionary string: " ++ s) else none)
  | Val.num q => (Val.num (-1), some ("Cannot parse dictionary string: " ++ pyReprNum q))

/-- Events of one iteration of the `for subkey in self.subkeys` loop: the
optional parse-failure log line, then `self.gauge('redis.<subkey>', val, db_tags)`. -/
def subkeyOne (db_tags : List String) (v : Val) (sk : String) : List Event :=
  ((subkeyResolve v sk).2.toList.map Event.log) ++
    [Event.gauge ("redis." ++ sk) (subkeyResolve v sk).1 db_tags]

/-- `Redis.subkeys = ['keys', 'expires']`. -/
def subkeys : List String := ["keys", "expires"]

/-- All events of the subkey loop for one per-db entry. -/
def subkeyEvents (db_tags : List String) (v : Val) : List Event :=
  subkeys.foldr (fun sk acc => subkeyOne db_tags v sk ++ acc) []

/-- The `redis.expires_ratio` computation
`round(100 * (float(info[key]['expires']) / float(info[key]['keys'])), 2)`,
with Python's left-to-right evaluation. Note the surrounding handler catches
only `AttributeError`; subscripting a flat string raises `TypeError`, a missing
dict key raises `KeyError` and `keys == 0` raises `ZeroDivisionError`, none of
which are caught. -/
def expiresRatioQ (v : Val) : Except PyErr ℚ :=
  match v with
  | Val.dict m =>
    match m.lookup "expires" with
    | none => Except.error (PyErr.keyError "expires")
    | some sve =>
      match pyFloatS sve with
      | Except.error e => Except.error e
      | Except.ok fe =>
        match m.lookup "keys" with
        | none => Except.error (PyErr.keyError "keys")
        | some svk =>
          match pyFloatS svk with
          | Except.error e => Except.error e
          | Except.ok fk =>
            if fk = 0 then Except.error PyErr.zeroDiv
            else Except.ok (round2 (100 * (fe / fk)))
  | Val.str _ => Except.error PyErr.typeError
  | Val.num _ => Except.error PyErr.typeError

/-- `re.match(r'^db\d+', key)`: the key starts with `db` followed by a digit. -/
def dbKeyMatch (key : String) : Bool :=
  match key.data with
  | 'd' :: 'b' :: c :: _ => c.isDigit
  | _ => false

/-- The per-db half of the `for key in info.keys()` loop of `_check_db`: for
every matching key, the subkey gauges, then the `expires_ratio` gauge; an
uncaught exception aborts the loop, keeping the events emitted so far. -/
def dbLoop (tags : List String) : List (String × Val) → List Event × Option PyErr
  | [] => ([], none)
  | (key, v) :: rest =>
    if dbKeyMatch key then
      match expiresRatioQ v with
      | Except.error e => (subkeyEvents (tags ++ ["redis_db:" ++ key]) v, some e)
      | Except.ok q =>
        match dbLoop tags rest with
        | (evs2, err) =>
          (subkeyEvents (tags ++ ["redis_db:" ++ key]) v ++
            (Event.gauge "redis.expires_ratio" (Val.num q) (tags ++ ["redis_db:" ++ key]) :: evs2),
           err)
    else dbLoop tags rest

/-- `Redis.GAUGE_KEYS`, in source order. -/
def GAUGE_KEYS : List (String × String) :=
  [("aof_last_rewrite_time_sec", "redis.aof.last_rewrite_time"),
   ("aof_rewrite_in_progress", "redis.aof.rewrite"),
   ("aof_current_size", "redis.aof.size"),
   ("aof_buffer_length", "redis.aof.buffer_length"),
   ("connected_clients", "redis.net.clients"),
   ("connected_slaves", "redis.net.slaves"),
   ("rejected_connections", "redis.net.rejected"),
   ("blocked_clients", "redis.clients.blocked"),
   ("client_biggest_input_buf", "redis.clients.biggest_input_buf"),
   ("client_longest_output_list", "redis.clients.longest_output_list"),
   ("evicted_keys", "redis.keys.evicted"),
   ("expired_keys", "redis.keys.expired"),
   ("keyspace_hits", "redis.stats.keyspace_hits"),
   ("keyspace_misses", "redis.stats.keyspace_misses"),
   ("latest_fork_usec", "redis.perf.latest_fork_usec"),
   ("pubsub_channels", "redis.pubsub.channels"),
   ("pubsub_patterns", "redis.pubsub.patterns"),
   ("rdb_bgsave_in_progress", "redis.rdb.bgsave"),
   ("rdb_changes_since_last_save", "redis.rdb.changes_since_last"),
   ("rdb_last_bgsave_time_sec", "redis.rdb.last_bgsave_time"),
   ("mem_fragmentation_ratio", "redis.mem.fragmentation_ratio"),
   ("used_memory", "redis.mem.used"),
   ("used_memory_lua", "redis.mem.lua"),
   ("used_memory_peak", "redis.mem.peak"),
   ("used_memory_rss", "redis.mem.rss"),
   ("master_last_io_seconds_ago", "redis.replication.last_io_seconds_ago"),
   ("master_sync_in_progress", "redis.replication.sync"),
   ("master_sync_left_bytes", "redis.replication.sync_left_bytes")]

/-- `Redis.RATE_KEYS`, in source order. -/
def RATE_KEYS : List (String × String) :=
  [("used_cpu_sys", "redis.cpu.sys"),
   ("used_cpu_sys_children", "redis.cpu.sys_children"),
   ("used_cpu_user", "redis.cpu.user"),
   ("used_cpu_user_children", "redis.cpu.user_children")]

/-- `Redis.RATIO_KEYS`: derived name, numerator field, denominator field. -/
def RATIO_KEYS : List (String × String × String) :=
  [("hit_ratio", "keyspace_hits", "keyspace_misses")]

/-- `[self.gauge(self.GAUGE_KEYS[k], info[k], tags=tags) for k in self.GAUGE_KEYS if k in info]`. -/
def gaugeStep (info : List (String × Val)) (tags : List String) : List Event :=
  GAUGE_KEYS.filterMap (fun p => (info.lookup p.1).map (fun v => Event.gauge p.2 v tags))

/-- `[self.rate(self.RATE_KEYS[k], info[k], tags=tags) for k in self.RATE_KEYS if k in info]`. -/
def rateStep (info : List (String × Val)) (tags : List String) : List Event :=
  RATE_KEYS.filterMap (fun p => (info.lookup p.1).map (fun v => Event.rate p.2 v tags))

/-- One entry of the ratio loop: `val1 = info[values[0]]` and
`val2 = info[values[1]]` (each a `KeyError` when absent), the `0 not in
[val1, val2]` guard, then `round(100 * (float(val1) / float(val2)), 2)`. -/
def ratioOne (info : List (String × Val)) (tags : List String)
    (name f1 f2 : String) : Except PyErr (List Event) :=
  match info.lookup f1 with
  | none => Except.error (PyErr.keyError f1)
  | some v1 =>
    match info.lookup f2 with
    | none => Except.error (PyErr.keyError f2)
    | some v2 =>
      if v1 = Val.num 0 ∨ v2 = Val.num 0 then Except.ok []
      else
        match pyFloatV v1 with
        | Except.error e => Except.error e
        | Except.ok q1 =>
          match pyFloatV v2 with
          | Except.error e => Except.error e
          | Except.ok q2 =>
            if q2 = 0 then Except.error PyErr.zeroDiv
            else Except.ok
              [Event.gauge ("redis." ++ name) (Val.num (round2 (100 * (q1 / q2)))) tags]

/-- The `for name, values in self.RATIO_KEYS.items()` loop. -/
def ratioLoop (info : List (String × Val)) (tags : List String) :
    List (String × String × String) → List Event × Option PyErr
  | [] => ([], none)
  | (name, f1, f2) :: rest =>
    match ratioOne info tags name f1 f2 with
    | Except.error e => ([], some e)
    | Except.ok evs =>
      match ratioLoop info tags rest with
      | (evs2, err) => (evs ++ evs2, err)

/-- Ratio stage over the static `RATIO_KEYS` table. -/
def ratioStep (info : List (String × Val)) (tags : List String) :
    List Event × Option PyErr :=
  ratioLoop info tags RATIO_KEYS

/-- The `for _list in list_lengths` loop. On a `ResponseError` the handler logs
`"Could not get length of %s: %s " % (key, e)` where `key` is the leftover
variable of the earlier `for key in info.keys()` loop, i.e. the LAST snapshot
field name, not `_list`; with an empty snapshot that variable was never bound
(`NameError`). -/
def llenStep (lastKey : Option String) (llen : String → LLenRes) (tags : List String) :
    List String → List Event × Option PyErr
  | [] => ([], none)
  | l :: rest =>
    match llen l with
    | LLenRes.ok n =>
      match llenStep lastKey llen tags rest with
      | (evs, e) => (Event.gauge ("redis.llen." ++ l) (Val.num n) tags :: evs, e)
    | LLenRes.err msg =>
      match lastKey with
      | none => ([], some PyErr.nameError)
      | some k =>
        match llenStep lastKey llen tags rest with
        | (evs, e) =>
          (Event.log ("Could not get length of " ++ k ++ ": " ++ msg ++ " ") :: evs, e)

/-- The command-counter stage:
`total_commands = info['total_commands_processed'] - 1`; emit the delta gauge
only when a previous value exists for the sorted tag tuple; always store the
new value. Subtracting 1 from a non-number is a `TypeError`. -/
def commandsStep (info : List (String × Val)) (tags : List String)
    (prev : List (List String × ℚ)) :
    Except PyErr (List Event × List (List String × ℚ)) :=
  match info.lookup "total_commands_processed" with
  | none => Except.error (PyErr.keyError "total_commands_processed")
  | some (Val.num q) =>
    Except.ok
      ((match prev.lookup tags with
        | some p => [Event.gauge "redis.net.commands" (Val.num (q - 1 - p)) tags]
        | none => []),
       (tags, q - 1) :: prev)
  | some _ => Except.error PyErr.typeError

/-- Stages from the list-length queries on: llen loop, then command delta. -/
def stage4 (tags : List String) (list_lengths : List String) (llen : String → LLenRes)
    (info : List (String × Val)) (prev : List (List String × ℚ)) :
    List Event × List (List String × ℚ) × Option PyErr :=
  match llenStep (info.map Prod.fst).getLast? llen tags list_lengths with
  | (ev5, some e) => (ev5, prev, some e)
  | (ev5, none) =>
    match commandsStep info tags prev with
    | Except.error e => (ev5, prev, some e)
    | Except.ok (ev6, prev2) => (ev5 ++ ev6, prev2, none)

/-- Stages from the ratio loop on. -/
def stage3 (tags : List String) (list_lengths : List String) (llen : String → LLenRes)
    (info : List (String × Val)) (prev : List (List String × ℚ)) :
    List Event × List (List String × ℚ) × Option PyErr :=
  match ratioStep info tags with
  | (ev4, some e) => (ev4, prev, some e)
  | (ev4, none) =>
    match stage4 tags list_lengths llen info prev with
    | (evs, prev2, err) => (ev4 ++ evs, prev2, err)

/-- Stages from the db-wide gauge/rate comprehensions on. -/
def stage2 (tags : List String) (list_lengths : List String) (llen : String → LLenRes)
    (info : List (String × Val)) (prev : List (List String × ℚ)) :
    List Event × List (List String × ℚ) × Option PyErr :=
  match stage3 tags list_lengths llen info prev with
  | (evs, prev2, err) => (gaugeStep info tags ++ rateStep info tags ++ evs, prev2, err)

/-- Body of `Redis._check_db` after the connection and tag computation:
the latency gauge, the per-db loop, then the remaining stages. `elapsed` is
the wall-clock duration of `conn.info()` in seconds. -/
def check_db_tagged (tags : List String) (list_lengths : List String)
    (llen : String → LLenRes) (info : List (String × Val)) (elapsed : ℚ)
    (prev : List (List String × ℚ)) :
    List Event × List (List String × ℚ) × Option PyErr :=
  match dbLoop tags info with
  | (ev1, some e) =>
    (Event.gauge "redis.info.latency_ms" (Val.num (round2 (elapsed * 1000))) tags :: ev1,
     prev, some e)
  | (ev1, none) =>
    match stage2 tags list_lengths llen info prev with
    | (evs, prev2, err) =>
      (Event.gauge "redis.info.latency_ms" (Val.num (round2 (elapsed * 1000))) tags ::
        (ev1 ++ evs), prev2, err)

/-- Lexicographic comparison of strings by code point, Python's `<` on `str`. -/
def charListLt : List Char → List Char → Bool
  | [], [] => false
  | [], _ :: _ => true
  | _ :: _, [] => false
  | a :: as', b :: bs' =>
    if a.toNat < b.toNat then true
    else if b.toNat < a.toNat then false
    else charListLt as' bs'

/-- Insert into a sorted list of strings. -/
def insertTag (s : String) : List String → List String
  | [] => [s]
  | t :: ts => if charListLt s.data t.data then s :: t :: ts else t :: insertTag s ts

/-- Python `sorted` on a list of distinct strings. -/
def sortTags (l : List String) : List String :=
  l.foldr insertTag []

/-- Set semantics of `set(...).union(...)`: drop repeated strings. -/
def dedupTags (seen : List String) : List String → List String
  | [] => []
  | t :: ts => if seen.contains t then dedupTags seen ts else t :: dedupTags (t :: seen) ts

/-- Tag computation of `_check_db`:
`sorted(set(custom_tags or []).union(["redis_host:%s" % host, "redis_port:%s" % port]))`. -/
def checkTags (host : String) (port : ℤ) (custom : List String) : List String :=
  sortTags (dedupTags []
    (custom ++ ["redis_host:" ++ host, "redis_port:" ++ toString port]))

/-- `Redis._check_db` for one invocation: computes the tags, then runs the
tagged body against the snapshot the connection returned. -/
def check_db (host : String) (port : ℤ) (custom_tags : List String)
    (list_lengths : List String) (llen : String → LLenRes)
    (info : List (String × Val)) (elapsed : ℚ)
    (prev : List (List String × ℚ)) :
    List Event × List (List String × ℚ) × Option PyErr :=
  check_db_tagged (checkTags host port custom_tags) list_lengths llen info elapsed prev

/-- A connection handle: identity of the target plus the password used to
authenticate, `none` when the connection was constructed without `password=`. -/
structure RHandle where
  host : String
  port : ℤ
  db : ℤ
  auth : Option String
deriving DecidableEq, Repr

/-- `Redis._get_conn(host, port, password, db)`. `supportsAuth` is false when
the installed redis library's constructor rejects the `password` keyword
(`TypeError`, logged and re-raised — the configuration error of the spec);
the first component is `none` in that case and the cache is left unchanged. -/
def get_conn (supportsAuth : Bool) (host : String) (port : ℤ)
    (password : Option String) (db : ℤ)
    (conns : List ((String × ℤ × ℤ) × RHandle)) :
    Option RHandle × List ((String × ℤ × ℤ) × RHandle) :=
  match conns.lookup (host, port, db) with
  | some h => (some h, conns)
  | none =>
    match password with
    | some p =>
      if p.length > 0 then
        if supportsAuth then
          (some ⟨host, port, db, some p⟩,
           ((host, port, db), RHandle.mk host port db (some p)) :: conns)
        else (none, conns)
      else
        (some ⟨host, port, db, none⟩,
         ((host, port, db), RHandle.mk host port db none) :: conns)
    | none =>
      (some ⟨host, port, db, none⟩,
       ((host, port, db), RHandle.mk host port db none) :: conns)

/-- The password actually passed to the constructor: present and non-empty. -/
def authOf : Option String → Option String
  | some p => if p.length > 0 then some p else none
  | none => none



/-- Does this event submit a gauge under the given metric name? -/
def isGaugeNamed (n : String) : Event → Bool
  | Event.gauge m _ _ => m == n
  | _ => false

/-- Is this event a log line? -/
def isLog : Event → Bool
  | Event.log _ => true
  | _ => false

theorem append_take_eq (a l b : String) (h : a ++ l = b) :
    b.data.take a.data.length = a.data := by
  subst h
  rw [String.data_append, List.take_left]

theorem llen_beq_netcmd (l : String) :
    (("redis.llen." ++ l) == "redis.net.commands") = false := by
  rw [beq_eq_false_iff_ne]
  intro h
  have h2 := append_take_eq _ _ _ h
  revert h2
  decide

theorem llen_beq_hitratio (l : String) :
    (("redis.llen." ++ l) == "redis.hit_ratio") = false := by
  rw [beq_eq_false_iff_ne]
  intro h
  have h2 := append_take_eq _ _ _ h
  revert h2
  decide

theorem filter_isGaugeNamed_subkeyOne (n : String) (db_tags : List String) (v : Val)
    (sk : String) (h : (("redis." ++ sk) == n) = false) :
    (subkeyOne db_tags v sk).filter (isGaugeNamed n) = [] := by
  unfold subkeyOne
  rcases (subkeyResolve v sk).2 with _ | m <;> simp [isGaugeNamed, h]

theorem filter_isGaugeNamed_subkeyEvents (n : String) (db_tags : List String) (v : Val)
    (h1 : ("redis.keys" == n) = false) (h2 : ("redis.expires" == n) = false) :
    (subkeyEvents db_tags v).filter (isGaugeNamed n) = [] := by
  have e1 : ("redis." ++ "keys") = "redis.keys" := rfl
  have e2 : ("redis." ++ "expires") = "redis.expires" := rfl
  unfold subkeyEvents subkeys
  simp only [List.foldr, List.filter_append, List.append_nil]
  rw [filter_isGaugeNamed_subkeyOne n db_tags v "keys" (by rw [e1]; exact h1),
      filter_isGaugeNamed_subkeyOne n db_tags v "expires" (by rw [e2]; exact h2)]
  rfl

theorem filter_isGaugeNamed_dbLoop (n : String) (tags : List String)
    (info : List (String × Val))
    (h1 : ("redis.keys" == n) = false) (h2 : ("redis.expires" == n) = false)
    (h3 : ("redis.expires_ratio" == n) = false) :
    (dbLoop tags info).1.filter (isGaugeNamed n) = [] := by
  induction info with
  | nil => rfl
  | cons kv rest ih =>
    obtain ⟨key, v⟩ := kv
    rw [dbLoop]
    cases hk : dbKeyMatch key with
    | false => simpa [hk] using ih
    | true =>
      rcases her : expiresRatioQ v with e | q
      · simpa [hk, her] using
          filter_isGaugeNamed_subkeyEvents n (tags ++ ["redis_db:" ++ key]) v h1 h2
      · rcases hrest : dbLoop tags rest with ⟨evs2, err⟩
        rw [hrest] at ih
        simp only [hk, her, if_true]
        simp [List.filter_append,
          filter_isGaugeNamed_subkeyEvents n (tags ++ ["redis_db:" ++ key]) v h1 h2,
          isGaugeNamed, h3, ih]

theorem filter_isGaugeNamed_gaugeStep (n : String) (info : List (String × Val))
    (tags : List String) (h : ∀ p ∈ GAUGE_KEYS, (p.2 == n) = false) :
    (gaugeStep info tags).filter (isGaugeNamed n) = [] := by
  rw [List.filter_eq_nil_iff]
  intro e he
  rw [gaugeStep, List.mem_filterMap] at he
  obtain ⟨p, hp, hpe⟩ := he
  rcases hl : info.lookup p.1 with _ | v <;> rw [hl] at hpe
  · cases hpe
  · rw [Option.map_some'] at hpe
    cases hpe
    simp [isGaugeNamed, h p hp]

theorem filter_isGaugeNamed_rateStep (n : String) (info : List (String × Val))
    (tags : List String) :
    (rateStep info tags).filter (isGaugeNamed n) = [] := by
  rw [List.filter_eq_nil_iff]
  intro e he
  rw [rateStep, List.mem_filterMap] at he
  obtain ⟨p, hp, hpe⟩ := he
  rcases hl : info.lookup p.1 with _ | v <;> rw [hl] at hpe
  · cases hpe
  · rw [Option.map_some'] at hpe
    cases hpe
    simp [isGaugeNamed]

theorem filter_isGaugeNamed_ratioOne (n : String) (info : List (String × Val))
    (tags : List String) (name f1 f2 : String) (evs : List Event)
    (hok : ratioOne info tags name f1 f2 = Except.ok evs)
    (h : (("redis." ++ name) == n) = false) :
    evs.filter (isGaugeNamed n) = [] := by
  unfold ratioOne at hok
  cases hl1 : info.lookup f1 with
  | none => rw [hl1] at hok; cases hok
  | some v1 =>
    rw [hl1] at hok
    cases hl2 : info.lookup f2 with
    | none => rw [hl2] at hok; cases hok
    | some v2 =>
      rw [hl2] at hok
      dsimp only at hok
      by_cases hz : v1 = Val.num 0 ∨ v2 = Val.num 0
      · rw [if_pos hz] at hok
        cases hok
        rfl
      · rw [if_neg hz] at hok
        cases hf1 : pyFloatV v1 with
        | error e => rw [hf1] at hok; cases hok
        | ok q1 =>
          rw [hf1] at hok
          cases hf2 : pyFloatV v2 with
          | error e => rw [hf2] at hok; cases hok
          | ok q2 =>
            rw [hf2] at hok
            dsimp only at hok
            by_cases hq : q2 = 0
            · rw [if_pos hq] at hok; cases hok
            · rw [if_neg hq] at hok
              cases hok
              simp [isGaugeNamed, h]

theorem filter_isGaugeNamed_ratioLoop (n : String) (info : List (String × Val))
    (tags : List String) (ks : List (String × String × String))
    (h : ∀ entry ∈ ks, (("redis." ++ entry.1) == n) = false) :
    (ratioLoop info tags ks).1.filter (isGaugeNamed n) = [] := by
  induction ks with
  | nil => rfl
  | cons entry rest ih =>
    obtain ⟨name, f1, f2⟩ := entry
    rw [ratioLoop]
    cases hone : ratioOne info tags name f1 f2 with
    | error e => rfl
    | ok evs =>
      rcases hrest : ratioLoop info tags rest with ⟨evs2, err⟩
      rw [hrest] at ih
      dsimp only
      rw [List.filter_append,
        filter_isGaugeNamed_ratioOne n info tags name f1 f2 evs hone
          (h (name, f1, f2) (List.mem_cons_self _ _)),
        ih (fun e2 hmem => h e2 (List.mem_cons_of_mem _ hmem))]
      rfl

theorem filter_isGaugeNamed_llenStep (n : String) (lastKey : Option String)
    (llen : String → LLenRes) (tags : List String) (ls : List String)
    (h : ∀ l : String, (("redis.llen." ++ l) == n) = false) :
    (llenStep lastKey llen tags ls).1.filter (isGaugeNamed n) = [] := by
  induction ls with
  | nil => rfl
  | cons l rest ih =>
    rw [llenStep]
    cases llen l with
    | ok q =>
      rcases hr : llenStep lastKey llen tags rest with ⟨evs, e⟩
      rw [hr] at ih
      simp [isGaugeNamed, h l, ih]
    | err msg =>
      cases lastKey with
      | none => rfl
      | some k =>
        rcases hr : llenStep (some k) llen tags rest with ⟨evs, e⟩
        rw [hr] at ih
        simp [isGaugeNamed, ih]


theorem stage4_ok (tags : List String) (ls : List String) (llen : String → LLenRes)
    (info : List (String × Val)) (prev : List (List String × ℚ))
    (hok : (stage4 tags ls llen info prev).2.2 = none) :
    ∃ t, info.lookup "total_commands_processed" = some (Val.num t) ∧
      (stage4 tags ls llen info prev).2.1 = (tags, t - 1) :: prev ∧
      (stage4 tags ls llen info prev).1.filter (isGaugeNamed "redis.net.commands") =
        (match prev.lookup tags with
         | some p => [Event.gauge "redis.net.commands" (Val.num (t - 1 - p)) tags]
         | none => []) := by
  have hev5 := filter_isGaugeNamed_llenStep "redis.net.commands"
    (List.map Prod.fst info).getLast? llen tags ls llen_beq_netcmd
  unfold stage4 at hok ⊢
  obtain ⟨⟨ev5, e5⟩, h5⟩ : ∃ x, llenStep (List.map Prod.fst info).getLast? llen tags ls = x :=
    ⟨_, rfl⟩
  rw [h5] at hok hev5 ⊢
  cases e5 with
  | some e => dsimp only at hok; cases hok
  | none =>
    dsimp only at hok hev5 ⊢
    obtain ⟨r6, h6⟩ : ∃ x, commandsStep info tags prev = x := ⟨_, rfl⟩
    rw [h6] at hok ⊢
    cases r6 with
    | error e => dsimp only at hok; cases hok
    | ok pr =>
      obtain ⟨ev6, prev2⟩ := pr
      dsimp only at hok ⊢
      unfold commandsStep at h6
      obtain ⟨o, hl⟩ : ∃ x, info.lookup "total_commands_processed" = x := ⟨_, rfl⟩
      rw [hl] at h6
      cases o with
      | none => cases h6
      | some v =>
        cases v with
        | str s => dsimp only at h6; cases h6
        | dict m => dsimp only at h6; cases h6
        | num q =>
          dsimp only at h6
          injection h6 with h6'
          obtain ⟨hev, hprev⟩ := Prod.mk.injEq .. |>.mp h6'
          refine ⟨q, hl, hprev.symm, ?_⟩
          rw [List.filter_append, hev5, ← hev]
          cases hp : prev.lookup tags with
          | none => rfl
          | some p => simp [isGaugeNamed]

theorem stage3_ok (tags : List String) (ls : List String) (llen : String → LLenRes)
    (info : List (String × Val)) (prev : List (List String × ℚ))
    (hok : (stage3 tags ls llen info prev).2.2 = none) :
    (stage4 tags ls llen info prev).2.2 = none ∧
    (stage3 tags ls llen info prev).2.1 = (stage4 tags ls llen info prev).2.1 ∧
    (stage3 tags ls llen info prev).1.filter (isGaugeNamed "redis.net.commands") =
      (stage4 tags ls llen info prev).1.filter (isGaugeNamed "redis.net.commands") := by
  have hev4 := filter_isGaugeNamed_ratioLoop "redis.net.commands" info tags RATIO_KEYS
    (by decide)
  rw [show ratioLoop info tags RATIO_KEYS = ratioStep info tags from rfl] at hev4
  unfold stage3 at hok ⊢
  obtain ⟨⟨ev4, e4⟩, h4⟩ : ∃ x, ratioStep info tags = x := ⟨_, rfl⟩
  rw [h4] at hok hev4 ⊢
  cases e4 with
  | some e => dsimp only at hok; cases hok
  | none =>
    dsimp only at hok hev4 ⊢
    obtain ⟨⟨evs, prev2, err⟩, hs4⟩ : ∃ x, stage4 tags ls llen info prev = x := ⟨_, rfl⟩
    rw [hs4] at hok ⊢
    dsimp only at hok ⊢
    exact ⟨hok, rfl, by rw [List.filter_append, hev4]; rfl⟩

theorem stage2_ok (tags : List String) (ls : List String) (llen : String → LLenRes)
    (info : List (String × Val)) (prev : List (List String × ℚ))
    (hok : (stage2 tags ls llen info prev).2.2 = none) :
    (stage3 tags ls llen info prev).2.2 = none ∧
    (stage2 tags ls llen info prev).2.1 = (stage3 tags ls llen info prev).2.1 ∧
    (stage2 tags ls llen info prev).1.filter (isGaugeNamed "redis.net.commands") =
      (stage3 tags ls llen info prev).1.filter (isGaugeNamed "redis.net.commands") := by
  have hg := filter_isGaugeNamed_gaugeStep "redis.net.commands" info tags (by decide)
  have hr := filter_isGaugeNamed_rateStep "redis.net.commands" info tags
  unfold stage2 at hok ⊢
  obtain ⟨⟨evs, prev2, err⟩, h3⟩ : ∃ x, stage3 tags ls llen info prev = x := ⟨_, rfl⟩
  rw [h3] at hok ⊢
  dsimp only at hok ⊢
  exact ⟨hok, rfl, by rw [List.filter_append, List.filter_append, hg, hr]; rfl⟩

theorem check_db_tagged_netcmd (tags : List String) (ls : List String)
    (llen : String → LLenRes) (info : List (String × Val)) (el : ℚ)
    (prev : List (List String × ℚ))
    (hok : (check_db_tagged tags ls llen info el prev).2.2 = none) :
    ∃ t, info.lookup "total_commands_processed" = some (Val.num t) ∧
      (check_db_tagged tags ls llen info el prev).2.1 = (tags, t - 1) :: prev ∧
      (check_db_tagged tags ls llen info el prev).1.filter
          (isGaugeNamed "redis.net.commands") =
        (match prev.lookup tags with
         | some p => [Event.gauge "redis.net.commands" (Val.num (t - 1 - p)) tags]
         | none => []) := by
  have hdb := filter_isGaugeNamed_dbLoop "redis.net.commands" tags info
    (by decide) (by decide) (by decide)
  unfold check_db_tagged at hok ⊢
  obtain ⟨⟨ev1, e1⟩, h1⟩ : ∃ x, dbLoop tags info = x := ⟨_, rfl⟩
  rw [h1] at hok hdb ⊢
  cases e1 with
  | some e => dsimp only at hok; cases hok
  | none =>
    dsimp only at hok hdb ⊢
    obtain ⟨⟨evs, prev2, err⟩, h2⟩ : ∃ x, stage2 tags ls llen info prev = x := ⟨_, rfl⟩
    rw [h2] at hok ⊢
    dsimp only at hok ⊢
    subst hok
    obtain ⟨hok3, hp2, hf2⟩ := stage2_ok tags ls llen info prev (by rw [h2])
    obtain ⟨hok4, hp3, hf3⟩ := stage3_ok tags ls llen info prev hok3
    obtain ⟨t, htot, hp4, hf4⟩ := stage4_ok tags ls llen info prev hok4
    rw [h2] at hp2 hf2
    refine ⟨t, htot, ?_, ?_⟩
    · dsimp only at hp2 ⊢
      rw [hp2, hp3]
      exact hp4
    · rw [List.filter_cons_of_neg, List.filter_append, hdb]
      · dsimp only at hf2
        rw [List.nil_append, hf2, hf3]
        exact hf4
      · simp [isGaugeNamed]

theorem commandsStep_filter_ne (n : String) (hn : ("redis.net.commands" == n) = false)
    (info : List (String × Val)) (tags : List String) (prev : List (List String × ℚ))
    (ev6 : List Event) (prev2 : List (List String × ℚ))
    (h : commandsStep info tags prev = Except.ok (ev6, prev2)) :
    ev6.filter (isGaugeNamed n) = [] := by
  unfold commandsStep at h
  obtain ⟨o, hl⟩ : ∃ x, info.lookup "total_commands_processed" = x := ⟨_, rfl⟩
  rw [hl] at h
  cases o with
  | none => cases h
  | some v =>
    cases v with
    | str s => dsimp only at h; cases h
    | dict m => dsimp only at h; cases h
    | num q =>
      dsimp only at h
      injection h with h'
      obtain ⟨hev, _⟩ := Prod.mk.injEq .. |>.mp h'
      rw [← hev]
      cases hp : prev.lookup tags with
      | none => rfl
      | some p => simp [isGaugeNamed, hn]

theorem filter_stage4_ne (n : String) (hn1 : ∀ l : String, (("redis.llen." ++ l) == n) = false)
    (hn2 : ("redis.net.commands" == n) = false)
    (tags : List String) (ls : List String) (llen : String → LLenRes)
    (info : List (String × Val)) (prev : List (List String × ℚ)) :
    (stage4 tags ls llen info prev).1.filter (isGaugeNamed n) = [] := by
  have hev5 := filter_isGaugeNamed_llenStep n
    (List.map Prod.fst info).getLast? llen tags ls hn1
  unfold stage4
  obtain ⟨⟨ev5, e5⟩, h5⟩ : ∃ x, llenStep (List.map Prod.fst info).getLast? llen tags ls = x :=
    ⟨_, rfl⟩
  rw [h5] at hev5 ⊢
  cases e5 with
  | some e => exact hev5
  | none =>
    dsimp only at hev5 ⊢
    obtain ⟨r6, h6⟩ : ∃ x, commandsStep info tags prev = x := ⟨_, rfl⟩
    rw [h6]
    cases r6 with
    | error e => exact hev5
    | ok pr =>
      obtain ⟨ev6, prev2⟩ := pr
      dsimp only
      rw [List.filter_append, hev5, commandsStep_filter_ne n hn2 info tags prev ev6 prev2 h6]
      rfl

theorem ratioOne_hit (info : List (String × Val)) (tags : List String) (h m : ℚ)
    (hh : info.lookup "keyspace_hits" = some (Val.num h))
    (hm : info.lookup "keyspace_misses" = some (Val.num m)) :
    ratioOne info tags "hit_ratio" "keyspace_hits" "keyspace_misses" =
      Except.ok (if h = 0 ∨ m = 0 then []
        else [Event.gauge "redis.hit_ratio" (Val.num (round2 (100 * (h / m)))) tags]) := by
  unfold ratioOne
  rw [hh, hm]
  dsimp only
  by_cases hz : h = 0 ∨ m = 0
  · rw [if_pos (by simpa using hz), if_pos hz]
  · rw [if_neg (by simpa using hz), if_neg hz]
    dsimp only [pyFloatV]
    rw [if_neg (by tauto : ¬ m = 0)]
    rfl

theorem ratioStep_hit (info : List (String × Val)) (tags : List String) (h m : ℚ)
    (hh : info.lookup "keyspace_hits" = some (Val.num h))
    (hm : info.lookup "keyspace_misses" = some (Val.num m)) :
    ratioStep info tags =
      ((if h = 0 ∨ m = 0 then []
        else [Event.gauge "redis.hit_ratio" (Val.num (round2 (100 * (h / m)))) tags]), none) := by
  show ratioLoop info tags RATIO_KEYS = _
  rw [show RATIO_KEYS = [("hit_ratio", "keyspace_hits", "keyspace_misses")] from rfl]
  rw [ratioLoop, ratioOne_hit info tags h m hh hm]
  dsimp only
  rw [ratioLoop]
  rw [List.append_nil]

theorem check_db_tagged_hit_ratio (tags : List String) (ls : List String)
    (llen : String → LLenRes) (info : List (String × Val)) (el : ℚ)
    (prev : List (List String × ℚ)) (h m : ℚ)
    (hdb : (dbLoop tags info).2 = none)
    (hh : info.lookup "keyspace_hits" = some (Val.num h))
    (hm : info.lookup "keyspace_misses" = some (Val.num m)) :
    (check_db_tagged tags ls llen info el prev).1.filter (isGaugeNamed "redis.hit_ratio") =
      (if h = 0 ∨ m = 0 then []
       else [Event.gauge "redis.hit_ratio" (Val.num (round2 (100 * (h / m)))) tags]) := by
  have hdbf := filter_isGaugeNamed_dbLoop "redis.hit_ratio" tags info
    (by decide) (by decide) (by decide)
  have hg := filter_isGaugeNamed_gaugeStep "redis.hit_ratio" info tags (by decide)
  have hrr := filter_isGaugeNamed_rateStep "redis.hit_ratio" info tags
  have hs4 := filter_stage4_ne "redis.hit_ratio" llen_beq_hitratio (by decide)
    tags ls llen info prev
  unfold check_db_tagged stage2 stage3
  obtain ⟨⟨ev1, e1⟩, h1⟩ : ∃ x, dbLoop tags info = x := ⟨_, rfl⟩
  rw [h1] at hdb hdbf ⊢
  cases e1 with
  | some e => cases hdb
  | none =>
    rw [ratioStep_hit info tags h m hh hm]
    dsimp only
    obtain ⟨⟨evs, prev2, err⟩, hst4⟩ : ∃ x, stage4 tags ls llen info prev = x := ⟨_, rfl⟩
    rw [hst4] at hs4 ⊢
    dsimp only at hs4 hdbf ⊢
    by_cases hz : h = 0 ∨ m = 0
    · rw [if_pos hz]
      simp [List.filter_cons, List.filter_append, hdbf, hg, hrr, hs4, isGaugeNamed,
        show ("redis.info.latency_ms" == "redis.hit_ratio") = false from by decide]
    · rw [if_neg hz]
      simp [List.filter_cons, List.filter_append, hdbf, hg, hrr, hs4, isGaugeNamed,
        show ("redis.info.latency_ms" == "redis.hit_ratio") = false from by decide]

theorem ratioOne_missing (info : List (String × Val)) (tags : List String)
    (habs : info.lookup "keyspace_hits" = none ∨ info.lookup "keyspace_misses" = none) :
    ∃ f, ratioOne info tags "hit_ratio" "keyspace_hits" "keyspace_misses" =
      Except.error (PyErr.keyError f) := by
  rcases habs with hh | hm
  · exact ⟨"keyspace_hits", by unfold ratioOne; rw [hh]⟩
  · cases hl : info.lookup "keyspace_hits" with
    | none => exact ⟨"keyspace_hits", by unfold ratioOne; rw [hl]⟩
    | some v => exact ⟨"keyspace_misses", by unfold ratioOne; rw [hl, hm]⟩

theorem check_db_tagged_ratio_missing (tags : List String) (ls : List String)
    (llen : String → LLenRes) (info : List (String × Val)) (el : ℚ)
    (prev : List (List String × ℚ))
    (hdb : (dbLoop tags info).2 = none)
    (habs : info.lookup "keyspace_hits" = none ∨ info.lookup "keyspace_misses" = none) :
    (∃ f, (check_db_tagged tags ls llen info el prev).2.2 = some (PyErr.keyError f)) ∧
    (check_db_tagged tags ls llen info el prev).1 =
      Event.gauge "redis.info.latency_ms" (Val.num (round2 (el * 1000))) tags ::
        ((dbLoop tags info).1 ++ (gaugeStep info tags ++ rateStep info tags)) ∧
    (check_db_tagged tags ls llen info el prev).2.1 = prev := by
  obtain ⟨f, hone⟩ := ratioOne_missing info tags habs
  have h4 : ratioStep info tags = ([], some (PyErr.keyError f)) := by
    show ratioLoop info tags RATIO_KEYS = _
    rw [show RATIO_KEYS = [("hit_ratio", "keyspace_hits", "keyspace_misses")] from rfl]
    rw [ratioLoop, hone]
  unfold check_db_tagged stage2 stage3
  obtain ⟨⟨ev1, e1⟩, h1⟩ : ∃ x, dbLoop tags info = x := ⟨_, rfl⟩
  rw [h1] at hdb ⊢
  cases e1 with
  | some e => cases hdb
  | none =>
    rw [h4]
    dsimp only
    exact ⟨⟨f, rfl⟩, by rw [List.append_nil], rfl⟩

/-- Claim C2: for every tag identity, a first invocation (no stored previous
value) stores `total_commands_processed - 1` and emits no `redis.net.commands`;
every later invocation emits the gauge `current compensated count - stored
previous value`; the new compensated count is always stored. -/
theorem c2_command_delta (tags ls : List String) (llen : String → LLenRes)
    (info : List (String × Val)) (el : ℚ) (prev : List (List String × ℚ)) (t : ℚ)
    (htot : info.lookup "total_commands_processed" = some (Val.num t))
    (hok : (check_db_tagged tags ls llen info el prev).2.2 = none) :
    (check_db_tagged tags ls llen info el prev).2.1.lookup tags = some (t - 1) ∧
    (prev.lookup tags = none →
      (check_db_tagged tags ls llen info el prev).1.filter
        (isGaugeNamed "redis.net.commands") = []) ∧
    (∀ p : ℚ, prev.lookup tags = some p →
      Event.gauge "redis.net.commands" (Val.num (t - 1 - p)) tags ∈
        (check_db_tagged tags ls llen info el prev).1) := by
  obtain ⟨t', htot', hstore, hfilter⟩ := check_db_tagged_netcmd tags ls llen info el prev hok
  rw [htot] at htot'
  injection htot' with e1
  injection e1 with e2
  subst e2
  refine ⟨?_, ?_, ?_⟩
  · rw [hstore]
    simp [List.lookup]
  · intro hfresh
    rw [hfilter, hfresh]
  · intro p hp
    rw [hp] at hfilter
    exact List.mem_of_mem_filter
      (p := isGaugeNamed "redis.net.commands")
      (by rw [hfilter]; exact List.mem_singleton_self _)

/-- Witness for C2: stored previous value 100, second invocation sees
`total_commands_processed` = 151 = 100+50+1 and emits `redis.net.commands` = 50. -/
theorem c2_command_delta_witness :
    Event.gauge "redis.net.commands" (Val.num 50)
        ["redis_host:localhost", "redis_port:6379"] ∈
      (check_db_tagged ["redis_host:localhost", "redis_port:6379"] []
        (fun _ => LLenRes.ok 1)
        [("keyspace_hits", Val.num 1), ("keyspace_misses", Val.num 1),
         ("total_commands_processed", Val.num 151)] 0
        [(["redis_host:localhost", "redis_port:6379"], 100)]).1 := by
  have h := (c2_command_delta ["redis_host:localhost", "redis_port:6379"] []
    (fun _ => LLenRes.ok 1)
    [("keyspace_hits", Val.num 1), ("keyspace_misses", Val.num 1),
     ("total_commands_processed", Val.num 151)] 0
    [(["redis_host:localhost", "redis_port:6379"], 100)] 151
    (by decide) (by decide)).2.2 100 (by decide)
  rw [show (151 : ℚ) - 1 - 100 = 50 from by norm_num] at h
  exact h

/-- Claim C4: when the invocation reaches the ratio stage, with both
`keyspace_hits` and `keyspace_misses` present and nonzero it emits
`redis.hit_ratio` = round(100*hits/misses, 2); when either is exactly 0, no
`redis.hit_ratio` gauge is emitted at all in the whole invocation. -/
theorem c4_hit_ratio (tags ls : List String) (llen : String → LLenRes)
    (info : List (String × Val)) (el : ℚ) (prev : List (List String × ℚ)) (h m : ℚ)
    (hdb : (dbLoop tags info).2 = none)
    (hh : info.lookup "keyspace_hits" = some (Val.num h))
    (hm : info.lookup "keyspace_misses" = some (Val.num m)) :
    (h ≠ 0 ∧ m ≠ 0 →
      Event.gauge "redis.hit_ratio" (Val.num (round2 (100 * (h / m)))) tags ∈
        (check_db_tagged tags ls llen info el prev).1) ∧
    (h = 0 ∨ m = 0 →
      (check_db_tagged tags ls llen info el prev).1.filter
        (isGaugeNamed "redis.hit_ratio") = []) := by
  have hc := check_db_tagged_hit_ratio tags ls llen info el prev h m hdb hh hm
  constructor
  · intro hz
    rw [if_neg (by tauto)] at hc
    exact List.mem_of_mem_filter
      (p := isGaugeNamed "redis.hit_ratio")
      (by rw [hc]; exact List.mem_singleton_self _)
  · intro hz
    rw [if_pos hz] at hc
    exact hc

/-- Witness for C4: hits = 80, misses = 20 emits hit_ratio = 400; hits = 0
emits no hit_ratio. -/
theorem c4_hit_ratio_witness :
    Event.gauge "redis.hit_ratio" (Val.num 400) ["redis_host:h"] ∈
      (check_db_tagged ["redis_host:h"] [] (fun _ => LLenRes.ok 1)
        [("keyspace_hits", Val.num 80), ("keyspace_misses", Val.num 20),
         ("total_commands_processed", Val.num 5)] 0 []).1 ∧
    (check_db_tagged ["redis_host:h"] [] (fun _ => LLenRes.ok 1)
        [("keyspace_hits", Val.num 0), ("keyspace_misses", Val.num 20),
         ("total_commands_processed", Val.num 5)] 0 []).1.filter
      (isGaugeNamed "redis.hit_ratio") = [] := by
  constructor
  · have h := (c4_hit_ratio ["redis_host:h"] [] (fun _ => LLenRes.ok 1)
      [("keyspace_hits", Val.num 80), ("keyspace_misses", Val.num 20),
       ("total_commands_processed", Val.num 5)] 0 [] 80 20
      (by decide) (by decide) (by decide)).1 (by norm_num)
    rw [show round2 (100 * ((80 : ℚ) / 20)) = 400 from by norm_num [round2]] at h
    exact h
  · exact (c4_hit_ratio ["redis_host:h"] [] (fun _ => LLenRes.ok 1)
      [("keyspace_hits", Val.num 0), ("keyspace_misses", Val.num 20),
       ("total_commands_processed", Val.num 5)] 0 [] 0 20
      (by decide) (by decide) (by decide)).2 (Or.inl rfl)

/-- Claim C5, amended: when `keyspace_hits` or `keyspace_misses` is absent from
the snapshot, the ratio stage raises an uncaught `KeyError` and the invocation
fails: the emitted events stop after the gauge/rate comprehensions, so the
list-length queries and the command-delta step never run and the stored
command state is unchanged. -/
theorem c5_ratio_missing_aborts (tags ls : List String) (llen : String → LLenRes)
    (info : List (String × Val)) (el : ℚ) (prev : List (List String × ℚ))
    (hdb : (dbLoop tags info).2 = none)
    (habs : info.lookup "keyspace_hits" = none ∨ info.lookup "keyspace_misses" = none) :
    (∃ f, (check_db_tagged tags ls llen info el prev).2.2 = some (PyErr.keyError f)) ∧
    (check_db_tagged tags ls llen info el prev).1 =
      Event.gauge "redis.info.latency_ms" (Val.num (round2 (el * 1000))) tags ::
        ((dbLoop tags info).1 ++ (gaugeStep info tags ++ rateStep info tags)) ∧
    (check_db_tagged tags ls llen info el prev).2.1 = prev :=
  check_db_tagged_ratio_missing tags ls llen info el prev hdb habs

/-- Witness for C5's amended statement at a concrete snapshot missing
`keyspace_misses`. -/
theorem c5_ratio_missing_aborts_witness :
    (∃ f, (check_db_tagged ["redis_host:h"] ["mylist"] (fun _ => LLenRes.ok 3)
      [("keyspace_hits", Val.num 80), ("total_commands_processed", Val.num 101)]
      0 []).2.2 = some (PyErr.keyError f)) ∧
    (check_db_tagged ["redis_host:h"] ["mylist"] (fun _ => LLenRes.ok 3)
      [("keyspace_hits", Val.num 80), ("total_commands_processed", Val.num 101)]
      0 []).1 =
      Event.gauge "redis.info.latency_ms" (Val.num (round2 (0 * 1000))) ["redis_host:h"] ::
        ((dbLoop ["redis_host:h"]
            [("keyspace_hits", Val.num 80), ("total_commands_processed", Val.num 101)]).1 ++
          (gaugeStep [("keyspace_hits", Val.num 80), ("total_commands_processed", Val.num 101)]
              ["redis_host:h"] ++
            rateStep [("keyspace_hits", Val.num 80), ("total_commands_processed", Val.num 101)]
              ["redis_host:h"])) ∧
    (check_db_tagged ["redis_host:h"] ["mylist"] (fun _ => LLenRes.ok 3)
      [("keyspace_hits", Val.num 80), ("total_commands_processed", Val.num 101)]
      0 []).2.1 = [] :=
  c5_ratio_missing_aborts ["redis_host:h"] ["mylist"] (fun _ => LLenRes.ok 3)
    [("keyspace_hits", Val.num 80), ("total_commands_processed", Val.num 101)]
    0 [] (by decide) (Or.inr (by decide))

/-- Claim C6, amended: `"keys=3,expires=0"` parses to 3 for `"keys"` and 0 for
`"expires"`; a string with no `=` returns the default -1 AND logs a parse
failure; a well-formed string missing the requested key returns -1 WITHOUT
logging (the `return default` path does not log). -/
theorem c6_parse_dict_string :
    parse_dict_string "keys=3,expires=0" "keys" (Val.num (-1)) = (Val.num 3, false) ∧
    parse_dict_string "keys=3,expires=0" "expires" (Val.num (-1)) = (Val.num 0, false) ∧
    parse_dict_string "garbage" "keys" (Val.num (-1)) = (Val.num (-1), true) ∧
    parse_dict_string "keys=3,expires=0" "foo" (Val.num (-1)) = (Val.num (-1), false) := by
  decide

/-- Counterexample for C6 as stated: querying an absent key of a well-formed
string returns the default -1 but does NOT log a parse failure. -/
theorem c6_parse_dict_string_counterexample :
    (parse_dict_string "keys=3,expires=0" "foo" (Val.num (-1))).1 = Val.num (-1) ∧
    (parse_dict_string "keys=3,expires=0" "foo" (Val.num (-1))).2 = false := by
  decide

/-- Claim C8: `_get_conn` returns a cached handle unchanged when one exists for
(host, port, db); otherwise it constructs a handle authenticated exactly when
the password is present and non-empty and caches it under that key; when the
client cannot authenticate (`TypeError`), the call fails and the cache is
left exactly as it was (no partial entry). -/
theorem c8_get_conn (sa : Bool) (host : String) (port db : ℤ) (password : Option String)
    (conns : List ((String × ℤ × ℤ) × RHandle)) :
    (∀ h, conns.lookup (host, port, db) = some h →
      get_conn sa host port password db conns = (some h, conns)) ∧
    (conns.lookup (host, port, db) = none → (authOf password ≠ none → sa = true) →
      get_conn sa host port password db conns =
        (some (RHandle.mk host port db (authOf password)),
         ((host, port, db), RHandle.mk host port db (authOf password)) :: conns)) ∧
    (conns.lookup (host, port, db) = none → authOf password ≠ none → sa = false →
      get_conn sa host port password db conns = (none, conns)) := by
  refine ⟨?_, ?_, ?_⟩
  · intro h hcache
    unfold get_conn
    rw [hcache]
  · intro hcache hauth
    cases password with
    | none =>
      unfold get_conn
      rw [hcache]
      rfl
    | some p =>
      by_cases hp : p.length > 0
      · have hsa : sa = true := hauth (by simp [authOf, hp])
        unfold get_conn
        rw [hcache]
        simp [authOf, hp, hsa]
      · unfold get_conn
        rw [hcache]
        simp [authOf, hp]
  · intro hcache hauth hsa
    cases password with
    | none => simp [authOf] at hauth
    | some p =>
      by_cases hp : p.length > 0
      · unfold get_conn
        rw [hcache]
        simp [hp, hsa]
      · simp [authOf, hp] at hauth

/-- Witness for C8: with an auth-incapable client, a fresh authenticated
connection request fails and caches nothing. -/
theorem c8_get_conn_witness :
    get_conn false "localhost" 6379 (some "pw") 0 [] = (none, []) :=
  (c8_get_conn false "localhost" 6379 0 (some "pw") []).2.2 (by decide) (by decide) rfl

/-- Claim C10: across two consecutive successful invocations under the same tag
tuple, the emitted `redis.net.commands` equals exactly the difference of the
two snapshots' `total_commands_processed` values: the per-invocation `- 1`
cancels in the delta. -/
theorem c10_delta_cancellation (tags ls1 ls2 : List String)
    (llen1 llen2 : String → LLenRes) (info1 info2 : List (String × Val))
    (el1 el2 : ℚ) (prev0 : List (List String × ℚ)) (t1 t2 : ℚ)
    (h1 : info1.lookup "total_commands_processed" = some (Val.num t1))
    (h2 : info2.lookup "total_commands_processed" = some (Val.num t2))
    (hok1 : (check_db_tagged tags ls1 llen1 info1 el1 prev0).2.2 = none)
    (hok2 : (check_db_tagged tags ls2 llen2 info2 el2
      (check_db_tagged tags ls1 llen1 info1 el1 prev0).2.1).2.2 = none) :
    Event.gauge "redis.net.commands" (Val.num (t2 - t1)) tags ∈
      (check_db_tagged tags ls2 llen2 info2 el2
        (check_db_tagged tags ls1 llen1 info1 el1 prev0).2.1).1 := by
  obtain ⟨t1', ht1', hstore1, _⟩ := check_db_tagged_netcmd tags ls1 llen1 info1 el1 prev0 hok1
  rw [h1] at ht1'
  injection ht1' with e1
  injection e1 with e2
  subst e2
  obtain ⟨t2', ht2', _, hfilter2⟩ := check_db_tagged_netcmd tags ls2 llen2 info2 el2
    (check_db_tagged tags ls1 llen1 info1 el1 prev0).2.1 hok2
  rw [h2] at ht2'
  injection ht2' with e3
  injection e3 with e4
  subst e4
  have hprev : (check_db_tagged tags ls1 llen1 info1 el1 prev0).2.1.lookup tags =
      some (t1 - 1) := by
    rw [hstore1]
    simp [List.lookup]
  rw [hprev] at hfilter2
  have hmem := List.mem_of_mem_filter
    (p := isGaugeNamed "redis.net.commands")
    (by rw [hfilter2]; exact List.mem_singleton_self _)
  rw [show t2 - 1 - (t1 - 1) = t2 - t1 from by ring] at hmem
  exact hmem

/-- Witness for C10: totals 101 then 131 produce a delta gauge of exactly 30. -/
theorem c10_delta_cancellation_witness :
    Event.gauge "redis.net.commands" (Val.num 30) ["redis_host:h"] ∈
      (check_db_tagged ["redis_host:h"] [] (fun _ => LLenRes.ok 1)
        [("keyspace_hits", Val.num 1), ("keyspace_misses", Val.num 1),
         ("total_commands_processed", Val.num 131)] 0
        (check_db_tagged ["redis_host:h"] [] (fun _ => LLenRes.ok 1)
          [("keyspace_hits", Val.num 1), ("keyspace_misses", Val.num 1),
           ("total_commands_processed", Val.num 101)] 0 []).2.1).1 := by
  have h := c10_delta_cancellation ["redis_host:h"] [] [] (fun _ => LLenRes.ok 1)
    (fun _ => LLenRes.ok 1)
    [("keyspace_hits", Val.num 1), ("keyspace_misses", Val.num 1),
     ("total_commands_processed", Val.num 101)]
    [("keyspace_hits", Val.num 1), ("keyspace_misses", Val.num 1),
     ("total_commands_processed", Val.num 131)] 0 0 [] 101 131
    (by decide) (by decide) (by decide) (by decide)
  rw [show (131 : ℚ) - 101 = 30 from by norm_num] at h
  exact h

/-- Snapshot for C1: a per-db entry with `keys` = 0 and a later db-wide field. -/
def c1info : List (String × Val) :=
  [("db0", Val.dict [("keys", SVal.num 0), ("expires", SVal.num 5)]),
   ("used_memory", Val.num 7),
   ("total_commands_processed", Val.num 101)]

/-- Claim C1 is a code bug: with `keys` = 0 the expires-ratio computation raises
an uncaught `ZeroDivisionError` (the handler catches only `AttributeError`), so
instead of skipping silently and continuing, the invocation aborts: no
`redis.expires_ratio` is emitted, but neither is the later `redis.mem.used`,
and the command-counter state is never stored. -/
theorem c1_keys_zero_division :
    (check_db "localhost" 6379 [] [] (fun _ => LLenRes.ok 1) c1info 0 []).2.2 =
        some PyErr.zeroDiv ∧
    (check_db "localhost" 6379 [] [] (fun _ => LLenRes.ok 1) c1info 0 []).1.filter
        (isGaugeNamed "redis.expires_ratio") = [] ∧
    (check_db "localhost" 6379 [] [] (fun _ => LLenRes.ok 1) c1info 0 []).1.filter
        (isGaugeNamed "redis.mem.used") = [] ∧
    (check_db "localhost" 6379 [] [] (fun _ => LLenRes.ok 1) c1info 0 []).2.1 = [] := by
  simp +decide [c1info, check_db, check_db_tagged, checkTags, sortTags, dedupTags, insertTag,
    charListLt, dbLoop, dbKeyMatch, subkeyEvents, subkeyOne, subkeyResolve, subkeys,
    expiresRatioQ, pyFloatS, round2, stage2, stage3, stage4, gaugeStep, rateStep,
    ratioStep, ratioLoop, ratioOne, pyFloatV, llenStep, commandsStep,
    GAUGE_KEYS, RATE_KEYS, RATIO_KEYS, List.lookup, isGaugeNamed,
    show ("redis_port:" ++ toString (6379 : ℤ)) = "redis_port:6379" from by decide,
    show ("redis_host:" ++ "localhost") = "redis_host:localhost" from by decide]

/-- The end-to-end snapshot of C3. -/
def c3info : List (String × Val) :=
  [("used_memory", Val.num 1048576),
   ("keyspace_hits", Val.num 80),
   ("keyspace_misses", Val.num 20),
   ("total_commands_processed", Val.num 101),
   ("db0", Val.dict [("keys", SVal.num 10), ("expires", SVal.num 2)])]

/-- Claim C3: on a first invocation with fresh state and this snapshot, the check
emits `redis.mem.used` = 1048576, `redis.hit_ratio` = 400, `redis.keys` = 10 and
`redis.expires` = 2 tagged with `redis_db:db0`, `redis.expires_ratio` = 20,
stores 100 as the previous command count for the tag tuple, emits no
`redis.net.commands`, and completes without error. -/
theorem c3_end_to_end :
    Event.gauge "redis.mem.used" (Val.num 1048576)
        ["redis_host:localhost", "redis_port:6379"] ∈
      (check_db "localhost" 6379 [] [] (fun _ => LLenRes.ok 1) c3info 0 []).1 ∧
    Event.gauge "redis.hit_ratio" (Val.num 400)
        ["redis_host:localhost", "redis_port:6379"] ∈
      (check_db "localhost" 6379 [] [] (fun _ => LLenRes.ok 1) c3info 0 []).1 ∧
    Event.gauge "redis.keys" (Val.num 10)
        ["redis_host:localhost", "redis_port:6379", "redis_db:db0"] ∈
      (check_db "localhost" 6379 [] [] (fun _ => LLenRes.ok 1) c3info 0 []).1 ∧
    Event.gauge "redis.expires" (Val.num 2)
        ["redis_host:localhost", "redis_port:6379", "redis_db:db0"] ∈
      (check_db "localhost" 6379 [] [] (fun _ => LLenRes.ok 1) c3info 0 []).1 ∧
    Event.gauge "redis.expires_ratio" (Val.num 20)
        ["redis_host:localhost", "redis_port:6379", "redis_db:db0"] ∈
      (check_db "localhost" 6379 [] [] (fun _ => LLenRes.ok 1) c3info 0 []).1 ∧
    (check_db "localhost" 6379 [] [] (fun _ => LLenRes.ok 1) c3info 0 []).2.1.lookup
        ["redis_host:localhost", "redis_port:6379"] = some 100 ∧
    (check_db "localhost" 6379 [] [] (fun _ => LLenRes.ok 1) c3info 0 []).1.filter
        (isGaugeNamed "redis.net.commands") = [] ∧
    (check_db "localhost" 6379 [] [] (fun _ => LLenRes.ok 1) c3info 0 []).2.2 = none := by
  simp +decide [c3info, check_db, check_db_tagged, checkTags, sortTags, dedupTags, insertTag,
    charListLt, dbLoop, dbKeyMatch, subkeyEvents, subkeyOne, subkeyResolve, subkeys,
    expiresRatioQ, pyFloatS, round2, stage2, stage3, stage4, gaugeStep, rateStep,
    ratioStep, ratioLoop, ratioOne, pyFloatV, llenStep, commandsStep,
    GAUGE_KEYS, RATE_KEYS, RATIO_KEYS, List.lookup, isGaugeNamed,
    show ("redis_port:" ++ toString (6379 : ℤ)) = "redis_port:6379" from by decide,
    show ("redis_host:" ++ "localhost") = "redis_host:localhost" from by decide]
  norm_num

/-- Counterexample for C5 as stated: with `keyspace_misses` absent the invocation
DOES fail (uncaught `KeyError`), and the requested list length is neither
queried nor emitted, and no command count is stored. -/
theorem c5_missing_field_counterexample :
    (check_db "localhost" 6379 [] ["mylist"] (fun _ => LLenRes.ok 3)
        [("keyspace_hits", Val.num 80), ("total_commands_processed", Val.num 101)]
        0 []).2.2 = some (PyErr.keyError "keyspace_misses") ∧
    Event.gauge "redis.llen.mylist" (Val.num 3)
        ["redis_host:localhost", "redis_port:6379"] ∉
      (check_db "localhost" 6379 [] ["mylist"] (fun _ => LLenRes.ok 3)
        [("keyspace_hits", Val.num 80), ("total_commands_processed", Val.num 101)]
        0 []).1 ∧
    (check_db "localhost" 6379 [] ["mylist"] (fun _ => LLenRes.ok 3)
        [("keyspace_hits", Val.num 80), ("total_commands_processed", Val.num 101)]
        0 []).2.1 = [] := by
  simp +decide [check_db, check_db_tagged, checkTags, sortTags, dedupTags, insertTag,
    charListLt, dbLoop, dbKeyMatch, subkeyEvents, subkeyOne, subkeyResolve, subkeys,
    expiresRatioQ, pyFloatS, round2, stage2, stage3, stage4, gaugeStep, rateStep,
    ratioStep, ratioLoop, ratioOne, pyFloatV, llenStep, commandsStep,
    GAUGE_KEYS, RATE_KEYS, RATIO_KEYS, List.lookup, isGaugeNamed,
    show ("redis_port:" ++ toString (6379 : ℤ)) = "redis_port:6379" from by decide,
    show ("redis_host:" ++ "localhost") = "redis_host:localhost" from by decide]

/-- Snapshot for C7: the last snapshot field is "db0", so the leftover loop
variable `key` holds "db0" when the llen handler logs. -/
def c7info : List (String × Val) :=
  [("total_commands_processed", Val.num 101),
   ("keyspace_hits", Val.num 1),
   ("keyspace_misses", Val.num 2),
   ("used_memory", Val.num 7),
   ("db0", Val.dict [("keys", SVal.num 4), ("expires", SVal.num 1)])]

/-- Claim C7 is a code bug in its logging half: on a llen `ResponseError` the
check logs and skips just that list and everything else still emits (no
`redis.llen.nosuchlist`, `redis.mem.used` emitted, command count stored, no
error) — but the only log line names "db0", the leftover info-loop variable,
not the failing list "nosuchlist". -/
theorem c7_llen_error_log :
    (check_db "localhost" 6379 [] ["nosuchlist"] (fun _ => LLenRes.err "WRONGTYPE")
        c7info 0 []).1.filter isLog =
      [Event.log "Could not get length of db0: WRONGTYPE "] ∧
    (check_db "localhost" 6379 [] ["nosuchlist"] (fun _ => LLenRes.err "WRONGTYPE")
        c7info 0 []).1.filter (isGaugeNamed "redis.llen.nosuchlist") = [] ∧
    Event.gauge "redis.mem.used" (Val.num 7)
        ["redis_host:localhost", "redis_port:6379"] ∈
      (check_db "localhost" 6379 [] ["nosuchlist"] (fun _ => LLenRes.err "WRONGTYPE")
        c7info 0 []).1 ∧
    (check_db "localhost" 6379 [] ["nosuchlist"] (fun _ => LLenRes.err "WRONGTYPE")
        c7info 0 []).2.1.lookup ["redis_host:localhost", "redis_port:6379"] = some 100 ∧
    (check_db "localhost" 6379 [] ["nosuchlist"] (fun _ => LLenRes.err "WRONGTYPE")
        c7info 0 []).2.2 = none := by
  simp +decide [c7info, check_db, check_db_tagged, checkTags, sortTags, dedupTags, insertTag,
    charListLt, dbLoop, dbKeyMatch, subkeyEvents, subkeyOne, subkeyResolve, subkeys,
    expiresRatioQ, pyFloatS, round2, stage2, stage3, stage4, gaugeStep, rateStep,
    ratioStep, ratioLoop, ratioOne, pyFloatV, llenStep, commandsStep,
    GAUGE_KEYS, RATE_KEYS, RATIO_KEYS, List.lookup, isGaugeNamed, isLog,
    show ("redis_port:" ++ toString (6379 : ℤ)) = "redis_port:6379" from by decide,
    show ("redis_host:" ++ "localhost") = "redis_host:localhost" from by decide,
    show ("Could not get length of " ++ "db0" ++ ": " ++ "WRONGTYPE" ++ " ") =
      "Could not get length of db0: WRONGTYPE " from by decide]
  norm_num

/-- Snapshot for C9: a legacy flat-string per-db entry with an unparsable value. -/
def c9info : List (String × Val) :=
  [("keyspace_hits", Val.num 1), ("keyspace_misses", Val.num 1),
   ("total_commands_processed", Val.num 7), ("db0", Val.str "keys=abc")]

/-- Claim C9: when the requested subkey of a legacy flat string has a value that
`int()` cannot parse, `_parse_dict_string` returns the raw string ("abc"), and
that string is submitted verbatim as the `redis.keys` gauge value. -/
theorem c9_unparsable_value_passthrough :
    (parse_dict_string "keys=abc" "keys" (Val.num (-1))).1 = Val.str "abc" ∧
    Event.gauge "redis.keys" (Val.str "abc")
        ["redis_host:localhost", "redis_port:6379", "redis_db:db0"] ∈
      (check_db "localhost" 6379 [] [] (fun _ => LLenRes.ok 1) c9info 0 []).1 := by
  constructor
  · decide
  · simp +decide [c9info, check_db, check_db_tagged, checkTags, sortTags, dedupTags,
      insertTag, charListLt, dbLoop, dbKeyMatch, subkeyEvents, subkeyOne, subkeys,
      expiresRatioQ, pyFloatS, round2, stage2, stage3, stage4, gaugeStep, rateStep,
      ratioStep, ratioLoop, ratioOne, pyFloatV, llenStep, commandsStep,
      GAUGE_KEYS, RATE_KEYS, RATIO_KEYS, List.lookup, isGaugeNamed,
      show subkeyResolve (Val.str "keys=abc") "keys" = (Val.str "abc", none) from by decide,
      show subkeyResolve (Val.str "keys=abc") "expires" = (Val.num (-1), none) from by decide,
      show ("redis_port:" ++ toString (6379 : ℤ)) = "redis_port:6379" from by decide,
      show ("redis_host:" ++ "localhost") = "redis_host:localhost" from by decide]

end RedisCheck
